import Mathlib

/-!
Shallow embedding of the `/flow/start` webhook prober of the next-api
repository (source: `src/unnamed/part_000`, the Express handler
`app.post('/flow/start', ...)`).

The handler iterates a fixed list of candidate JSON payloads, POSTing each
to a fixed webhook URL until one is accepted.  We model JSON values, the
result of a single outbound `axios.post` call, the attempt records pushed
into `results`, and the loop itself.  The behaviour of the remote endpoint
is a parameter `call : Nat → CallResult` giving the result of the i-th
outbound call (the loop issues calls strictly in candidate order, one per
candidate, so indexing calls by position is faithful).  The run records the
final outcome, the list of awaited delays (in milliseconds), the list of
outbound requests issued, and the final state of the `results` array.
-/

/-- JSON-like values, as handled by the JS code (bodies, response data). -/
inductive Json where
  | null : Json
  | bool : Bool → Json
  | num : Nat → Json
  | str : String → Json
  | arr : List Json → Json
  | obj : List (String × Json) → Json
deriving Repr

/-- JavaScript truthiness of a JSON value, as used by `data || err.message`
and by the `status &&` guard (for the data side). -/
def Json.truthy : Json → Bool
  | .null => false
  | .bool b => b
  | .num n => n != 0
  | .str s => s != ""
  | .arr _ => true
  | .obj _ => true

/-- The result of one outbound `axios.post`: either the promise resolves
with a response body (`resp.data`), or it rejects with an error carrying
`err.response?.status` (absent on transport-level failures),
`err.response?.data`, and `err.message`. -/
inductive CallResult where
  | success : Json → CallResult
  | failure : Option Nat → Option Json → String → CallResult
deriving Repr

/-- The `status` field of an attempt record: `status || 'no-response'`.
A missing status (and, by JS truthiness, a zero status) records the
`'no-response'` sentinel string. -/
inductive StatusField where
  | num : Nat → StatusField
  | noResponse : StatusField
deriving Repr

/-- The `data` field of an attempt record and the `error` field of the
abort response: either the remote response body or, when that body is
falsy, the client error message (`data || err.message`). -/
inductive DataField where
  | json : Json → DataField
  | msg : String → DataField
deriving Repr

/-- `data || err.message`: the remote body when truthy, else the message. -/
def dataOrMessage (data : Option Json) (msg : String) : DataField :=
  match data with
  | some d => if d.truthy then .json d else .msg msg
  | none => .msg msg

/-- `status || 'no-response'`. -/
def statusOrSentinel (status : Option Nat) : StatusField :=
  match status with
  | some s => if s != 0 then .num s else .noResponse
  | none => .noResponse

/-- One element of the `results` array:
`results.push({ payload, status: status || 'no-response', data: data || err.message })`. -/
structure Attempt where
  payload : Json
  status : StatusField
  data : DataField
deriving Repr

/-- Builds the attempt record pushed for a failed call. -/
def mkAttempt (payload : Json) (status : Option Nat) (data : Option Json)
    (msg : String) : Attempt :=
  { payload := payload
    status := statusOrSentinel status
    data := dataOrMessage data msg }

/-- One outbound request as issued by
`axios.post(url, payload, { headers, timeout: 10000 })`. -/
structure OutboundRequest where
  url : String
  body : Json
  headers : List (String × String)
  timeout : Nat
deriving Repr

/-- The fixed webhook URL of the `/flow/start` handler. -/
def flowWebhookUrl : String :=
  "https://areadocliente.liguelead.com.br/api/crm/webhook/f914ed2e-30d3-4c5a-b4a4-6fe7ea1223d3"

/-- The request the loop issues for one candidate payload. -/
def mkReq (headers : List (String × String)) (payload : Json) : OutboundRequest :=
  { url := flowWebhookUrl, body := payload, headers := headers, timeout := 10000 }

/-- The terminal outcome of one probe run: the three `return res....`
statements reachable from the loop. -/
inductive ProbeOutcome where
  | firstSuccess : Json → Json → ProbeOutcome
  | nonRecoverable : Nat → DataField → List Attempt → ProbeOutcome
  | exhausted : List Attempt → ProbeOutcome
deriving Repr

/-- Observable trace of one probe run: the outcome, every awaited delay
(in ms, in order), every outbound request issued (in order), and the final
contents of the `results` array. -/
structure ProbeRun where
  outcome : ProbeOutcome
  delays : List Nat
  calls : List OutboundRequest
  results : List Attempt
deriving Repr

/-- The probe loop `for (const payload of candidates) { ... }`.
`i` is the index of the next call; `res`, `del`, `calls` accumulate the
`results` array, the awaited delays and the issued requests.  On a failed
call the guard `status && ![422, 400].includes(status)` decides between
the non-recoverable abort and `await delay(300)` + next candidate. -/
def probeGo (call : Nat → CallResult) (headers : List (String × String)) :
    List Json → Nat → List Attempt → List Nat → List OutboundRequest → ProbeRun
  | [], _, res, del, calls =>
      { outcome := .exhausted res, delays := del, calls := calls, results := res }
  | payload :: rest, i, res, del, calls =>
      match call i with
      | .success body =>
          { outcome := .firstSuccess payload body
            delays := del
            calls := calls ++ [mkReq headers payload]
            results := res }
      | .failure status data msg =>
          match status with
          | some s =>
              if s != 0 && !(s == 422 || s == 400) then
                { outcome := .nonRecoverable s (dataOrMessage data msg)
                    (res ++ [mkAttempt payload (some s) data msg])
                  delays := del
                  calls := calls ++ [mkReq headers payload]
                  results := res ++ [mkAttempt payload (some s) data msg] }
              else
                probeGo call headers rest (i + 1)
                  (res ++ [mkAttempt payload (some s) data msg])
                  (del ++ [300]) (calls ++ [mkReq headers payload])
          | none =>
              probeGo call headers rest (i + 1)
                (res ++ [mkAttempt payload none data msg])
                (del ++ [300]) (calls ++ [mkReq headers payload])

/-- One full probe run of the `/flow/start` handler body. -/
def runProbe (call : Nat → CallResult) (headers : List (String × String))
    (candidates : List Json) : ProbeRun :=
  probeGo call headers candidates 0 [] [] []

/-- JSON rendering of an attempt's `status` field. -/
def StatusField.toJson : StatusField → Json
  | .num s => .num s
  | .noResponse => .str "no-response"

/-- JSON rendering of an attempt's `data` / the abort `error` field. -/
def DataField.toJson : DataField → Json
  | .json j => j
  | .msg m => .str m

/-- JSON rendering of one attempt record. -/
def Attempt.toJson (a : Attempt) : Json :=
  .obj [("payload", a.payload), ("status", a.status.toJson), ("data", a.data.toJson)]

/-- Message of the exhaustion response. -/
def exhaustedMessage : String :=
  "Nenhum payload aceito pelo webhook. Verifique schema esperado pela LigueLead."

/-- The HTTP status and JSON body the handler sends for each outcome:
`res.json({ok: true, usedPayload, response})` (status 200),
`res.status(status).json({error, attempts})`, and
`res.status(422).json({ok: false, message, attempts})`. -/
def httpOf : ProbeOutcome → Nat × Json
  | .firstSuccess payload response =>
      (200, .obj [("ok", .bool true), ("usedPayload", payload), ("response", response)])
  | .nonRecoverable status err atts =>
      (status, .obj [("error", err.toJson), ("attempts", .arr (atts.map Attempt.toJson))])
  | .exhausted atts =>
      (422, .obj [("ok", .bool false), ("message", .str exhaustedMessage),
                  ("attempts", .arr (atts.map Attempt.toJson))])

/-- The response of the outer `catch`:
`res.status(500).json({ error: err.message })`, sent only on an unexpected
exception in the orchestration itself. -/
def internalFault (msg : String) : Nat × Json :=
  (500, .obj [("error", .str msg)])

/-- The fixed build-time candidate list of the handler. -/
def flowCandidates : List Json :=
  [ .obj [("event", .str "iniciar_flow")],
    .obj [("event", .str "start_flow")],
    .obj [("action", .str "iniciar_flow")],
    .obj [("action", .str "start_flow")],
    .obj [("type", .str "iniciar_flow")],
    .obj [("type", .str "start_flow")],
    .obj [("trigger", .str "iniciar_flow")],
    .obj [("trigger", .str "start_flow")],
    .obj [("event", .obj [("name", .str "iniciar_flow")])],
    .obj [("event", .obj [("name", .str "start_flow")])],
    .obj [("event", .str "iniciar_flow"), ("leadId", .str "manual-test-1")],
    .obj [("event", .str "iniciar_flow"),
          ("lead", .obj [("id", .str "manual-test-1"), ("name", .str "Teste")])],
    .obj [("action", .str "start_flow"), ("data", .obj [("source", .str "api")])],
    .obj [],
    .obj [] ]

/-- A failed call whose recorded status is in the recoverable set
`[422, 400]`. -/
def CallResult.isRecoverableFailure : CallResult → Bool
  | .failure (some s) _ _ => s == 422 || s == 400
  | _ => false

/-- A failed call that does not trigger the early abort: either no numeric
status (transport failure, or a falsy status 0) or a status in the
recoverable set. -/
def CallResult.isNonAbortingFailure : CallResult → Bool
  | .failure (some s) _ _ => s == 0 || s == 422 || s == 400
  | .failure none _ _ => true
  | .success _ => false

/-- The attempt record a failed call produces for payload `p` (unused
junk value on a success, which never records an attempt). -/
def attemptOf (p : Json) : CallResult → Attempt
  | .failure st d m => mkAttempt p st d m
  | .success _ => mkAttempt p none none ""

/-- Attempt records for a run of consecutive failed calls starting at
call index `i`, one per candidate in order. -/
def attemptsFor (call : Nat → CallResult) : Nat → List Json → List Attempt
  | _, [] => []
  | i, p :: ps => attemptOf p (call i) :: attemptsFor call (i + 1) ps

/-! ### Helper lemmas about the probe loop -/

theorem attemptsFor_length (call : Nat → CallResult) :
    ∀ (i : Nat) (ps : List Json), (attemptsFor call i ps).length = ps.length
  | _, [] => rfl
  | i, _ :: ps => by simp [attemptsFor, attemptsFor_length call (i + 1) ps]

theorem probeGo_success (call : Nat → CallResult) (headers : List (String × String))
    (p : Json) (rest : List Json) (i : Nat) (res : List Attempt) (del : List Nat)
    (calls : List OutboundRequest) (body : Json) (h : call i = .success body) :
    probeGo call headers (p :: rest) i res del calls =
      { outcome := .firstSuccess p body, delays := del,
        calls := calls ++ [mkReq headers p], results := res } := by
  simp [probeGo, h]

theorem probeGo_abort (call : Nat → CallResult) (headers : List (String × String))
    (p : Json) (rest : List Json) (i : Nat) (res : List Attempt) (del : List Nat)
    (calls : List OutboundRequest) (s : Nat) (d : Option Json) (m : String)
    (h : call i = .failure (some s) d m)
    (hs : s ≠ 0) (h422 : s ≠ 422) (h400 : s ≠ 400) :
    probeGo call headers (p :: rest) i res del calls =
      { outcome := .nonRecoverable s (dataOrMessage d m) (res ++ [mkAttempt p (some s) d m]),
        delays := del, calls := calls ++ [mkReq headers p],
        results := res ++ [mkAttempt p (some s) d m] } := by
  simp [probeGo, h, hs, h422, h400]

theorem probeGo_continue (call : Nat → CallResult) (headers : List (String × String))
    (p : Json) (rest : List Json) (i : Nat) (res : List Attempt) (del : List Nat)
    (calls : List OutboundRequest) (st : Option Nat) (d : Option Json) (m : String)
    (h : call i = .failure st d m)
    (hna : (CallResult.failure st d m).isNonAbortingFailure = true) :
    probeGo call headers (p :: rest) i res del calls =
      probeGo call headers rest (i + 1) (res ++ [mkAttempt p st d m])
        (del ++ [300]) (calls ++ [mkReq headers p]) := by
  cases st with
  | none => simp [probeGo, h]
  | some s =>
      simp only [CallResult.isNonAbortingFailure, Bool.or_eq_true, beq_iff_eq] at hna
      rcases hna with (h0 | h422) | h400 <;> subst_vars <;> simp only [probeGo, h] <;> rfl

/-- Running the loop over a block of `n` consecutive non-aborting failures:
it records one attempt, one 300 ms delay and one outbound request per
candidate and continues after the block. -/
theorem probeGo_skip (call : Nat → CallResult) (headers : List (String × String)) :
    ∀ (n : Nat) (cs : List Json) (i : Nat) (res : List Attempt) (del : List Nat)
      (calls : List OutboundRequest), n ≤ cs.length →
      (∀ j, j < n → (call (i + j)).isNonAbortingFailure = true) →
      probeGo call headers cs i res del calls =
        probeGo call headers (cs.drop n) (i + n)
          (res ++ attemptsFor call i (cs.take n))
          (del ++ List.replicate n 300)
          (calls ++ (cs.take n).map (mkReq headers)) := by
  intro n
  induction n with
  | zero => intro cs i res del calls _ _; simp [attemptsFor]
  | succ n ih =>
      intro cs i res del calls hle hna
      cases cs with
      | nil => simp at hle
      | cons p rest =>
          have h0 : (call i).isNonAbortingFailure = true := by
            simpa using hna 0 (Nat.succ_pos n)
          cases hc : call i with
          | success b =>
              rw [hc] at h0
              simp [CallResult.isNonAbortingFailure] at h0
          | failure st d m =>
              rw [hc] at h0
              rw [probeGo_continue call headers p rest i res del calls st d m hc h0]
              rw [ih rest (i + 1) (res ++ [mkAttempt p st d m]) (del ++ [300])
                    (calls ++ [mkReq headers p]) (by simpa using hle)
                    (fun j hj => by
                      have h1 := hna (j + 1) (by omega)
                      have h2 : i + (j + 1) = i + 1 + j := by omega
                      rwa [h2] at h1)]
              have hi : i + (n + 1) = i + 1 + n := by omega
              rw [List.drop_succ_cons, List.take_succ_cons, hi]
              simp [attemptsFor, attemptOf, hc, List.replicate_succ, List.append_assoc]

/-- The requests issued by the loop are its accumulator followed by the
image of a prefix of the candidate list, in order. -/
theorem probeGo_calls (call : Nat → CallResult) (headers : List (String × String)) :
    ∀ (cs : List Json) (i : Nat) (res : List Attempt) (del : List Nat)
      (calls : List OutboundRequest),
      ∃ k, k ≤ cs.length ∧
        (probeGo call headers cs i res del calls).calls =
          calls ++ (cs.take k).map (mkReq headers) := by
  intro cs
  induction cs with
  | nil => intro i res del calls; exact ⟨0, by simp, by simp [probeGo]⟩
  | cons p rest ih =>
      intro i res del calls
      cases hc : call i with
      | success b =>
          refine ⟨1, by simp, ?_⟩
          rw [probeGo_success call headers p rest i res del calls b hc]
          simp
      | failure st d m =>
          cases st with
          | some s =>
              by_cases habort : (s != 0 && !(s == 422 || s == 400)) = true
              · refine ⟨1, by simp, ?_⟩
                simp only [probeGo, hc]
                rw [if_pos habort]
                simp
              · obtain ⟨k, hk, hcalls⟩ :=
                  ih (i + 1) (res ++ [mkAttempt p (some s) d m]) (del ++ [300])
                    (calls ++ [mkReq headers p])
                refine ⟨k + 1, by simpa using hk, ?_⟩
                simp only [probeGo, hc]
                rw [if_neg habort, hcalls]
                simp [List.append_assoc]
          | none =>
              obtain ⟨k, hk, hcalls⟩ :=
                ih (i + 1) (res ++ [mkAttempt p none d m]) (del ++ [300])
                  (calls ++ [mkReq headers p])
              refine ⟨k + 1, by simpa using hk, ?_⟩
              simp only [probeGo, hc]
              rw [hcalls]
              simp [List.append_assoc]

/-- Every delay the loop awaits beyond its accumulator is 300 ms. -/
theorem probeGo_delays (call : Nat → CallResult) (headers : List (String × String)) :
    ∀ (cs : List Json) (i : Nat) (res : List Attempt) (del : List Nat)
      (calls : List OutboundRequest) (x : Nat),
      x ∈ (probeGo call headers cs i res del calls).delays → x ∈ del ∨ x = 300 := by
  intro cs
  induction cs with
  | nil => intro i res del calls x hx; left; simpa [probeGo] using hx
  | cons p rest ih =>
      intro i res del calls x hx
      cases hc : call i with
      | success b =>
          rw [probeGo_success call headers p rest i res del calls b hc] at hx
          left; exact hx
      | failure st d m =>
          cases st with
          | some s =>
              by_cases habort : (s != 0 && !(s == 422 || s == 400)) = true
              · simp only [probeGo, hc] at hx
                rw [if_pos habort] at hx
                left; exact hx
              · simp only [probeGo, hc] at hx
                rw [if_neg habort] at hx
                rcases ih (i + 1) (res ++ [mkAttempt p (some s) d m]) (del ++ [300])
                    (calls ++ [mkReq headers p]) x hx with h | h
                · rcases List.mem_append.mp h with h' | h'
                  · left; exact h'
                  · right; simpa using h'
                · right; exact h
          | none =>
              simp only [probeGo, hc] at hx
              rcases ih (i + 1) (res ++ [mkAttempt p none d m]) (del ++ [300])
                  (calls ++ [mkReq headers p]) x hx with h | h
              · rcases List.mem_append.mp h with h' | h'
                · left; exact h'
                · right; simpa using h'
              · right; exact h

/-- The loop ends in the non-recoverable abort only when some call
returned a response with a nonzero numeric status outside `[422, 400]`,
and that status is the one surfaced. -/
theorem probeGo_abort_inv (call : Nat → CallResult) (headers : List (String × String)) :
    ∀ (cs : List Json) (i : Nat) (res : List Attempt) (del : List Nat)
      (calls : List OutboundRequest) (s : Nat) (e : DataField) (atts : List Attempt),
      (probeGo call headers cs i res del calls).outcome = .nonRecoverable s e atts →
      s ≠ 0 ∧ s ≠ 422 ∧ s ≠ 400 ∧ ∃ j d m, call j = .failure (some s) d m := by
  intro cs
  induction cs with
  | nil => intro i res del calls s e atts h; simp [probeGo] at h
  | cons p rest ih =>
      intro i res del calls s e atts h
      cases hc : call i with
      | success b =>
          rw [probeGo_success call headers p rest i res del calls b hc] at h
          simp at h
      | failure st d m =>
          cases st with
          | some s' =>
              by_cases habort : (s' != 0 && !(s' == 422 || s' == 400)) = true
              · simp only [probeGo, hc] at h
                rw [if_pos habort] at h
                simp only [ProbeOutcome.nonRecoverable.injEq] at h
                obtain ⟨hs, -, -⟩ := h
                subst hs
                simp only [bne_iff_ne, Bool.and_eq_true, Bool.not_eq_true',
                  Bool.or_eq_false_iff, beq_eq_false_iff_ne] at habort
                exact ⟨habort.1, habort.2.1, habort.2.2, i, d, m, hc⟩
              · simp only [probeGo, hc] at h
                rw [if_neg habort] at h
                exact ih (i + 1) _ _ _ s e atts h
          | none =>
              simp only [probeGo, hc] at h
              exact ih (i + 1) _ _ _ s e atts h

/-- A recoverable-status failure never triggers the early abort. -/
theorem isRecoverableFailure_nonAborting (c : CallResult)
    (h : c.isRecoverableFailure = true) : c.isNonAbortingFailure = true := by
  cases c with
  | success b => simp [CallResult.isRecoverableFailure] at h
  | failure st d m =>
      cases st with
      | none => rfl
      | some s =>
          simp only [CallResult.isRecoverableFailure, Bool.or_eq_true, beq_iff_eq] at h
          simp only [CallResult.isNonAbortingFailure, Bool.or_eq_true, beq_iff_eq]
          rcases h with h | h
          · exact Or.inl (Or.inr h)
          · exact Or.inr h

/-- `probeGo_skip` specialised to a full run from the handler entry. -/
theorem runProbe_skip (call : Nat → CallResult) (headers : List (String × String))
    (cs : List Json) (n : Nat) (hle : n ≤ cs.length)
    (hna : ∀ j, j < n → (call j).isNonAbortingFailure = true) :
    runProbe call headers cs =
      probeGo call headers (cs.drop n) n (attemptsFor call 0 (cs.take n))
        (List.replicate n 300) ((cs.take n).map (mkReq headers)) := by
  have h := probeGo_skip call headers n cs 0 [] [] [] hle
    (fun j hj => by simpa using hna j hj)
  simpa [runProbe] using h

/-! ### Claims -/

/-- C1: if the Nth candidate (1-indexed) yields a success response and
every earlier candidate yields a recoverable-status failure, the run
returns first-success: HTTP 200 with body `{ok: true, usedPayload,
response}` where `usedPayload` is the Nth candidate and `response` the
remote body, after exactly N-1 inter-attempt delays and without calling
any candidate past the Nth. -/
theorem flow_start_first_success (call : Nat → CallResult)
    (headers : List (String × String)) (cs : List Json) (n : Nat) (p body : Json)
    (h1 : 1 ≤ n) (hp : cs[n - 1]? = some p)
    (hfail : ∀ j, j < n - 1 → (call j).isRecoverableFailure = true)
    (hsucc : call (n - 1) = .success body) :
    (runProbe call headers cs).outcome = .firstSuccess p body
    ∧ httpOf (runProbe call headers cs).outcome =
        (200, .obj [("ok", .bool true), ("usedPayload", p), ("response", body)])
    ∧ (runProbe call headers cs).delays = List.replicate (n - 1) 300
    ∧ (runProbe call headers cs).calls = (cs.take n).map (mkReq headers) := by
  obtain ⟨hn, hpe⟩ := List.getElem?_eq_some_iff.mp hp
  have hdrop : cs.drop (n - 1) = p :: cs.drop (n - 1 + 1) := by
    rw [List.drop_eq_getElem_cons hn, hpe]
  have htake : cs.take n = cs.take (n - 1) ++ [p] := by
    have hsn : n - 1 + 1 = n := by omega
    rw [← hsn, List.take_succ, hp]
    rfl
  have hrun : runProbe call headers cs =
      { outcome := .firstSuccess p body
        delays := List.replicate (n - 1) 300
        calls := (cs.take (n - 1)).map (mkReq headers) ++ [mkReq headers p]
        results := attemptsFor call 0 (cs.take (n - 1)) } := by
    rw [runProbe_skip call headers cs (n - 1) (Nat.le_of_lt hn)
          (fun j hj => isRecoverableFailure_nonAborting _ (hfail j hj)),
        hdrop,
        probeGo_success call headers p (cs.drop (n - 1 + 1)) (n - 1)
          (attemptsFor call 0 (cs.take (n - 1))) (List.replicate (n - 1) 300)
          ((cs.take (n - 1)).map (mkReq headers)) body hsucc]
  refine ⟨by rw [hrun], by rw [hrun]; rfl, by rw [hrun], ?_⟩
  rw [hrun, htake]
  simp

/-- Witness for C1: two candidates, the first rejected with 422, the
second accepted with `{queued: true}` (the spec's concrete scenario). -/
theorem flow_start_first_success_witness :
    (runProbe
        (fun i => match i with
          | 0 => .failure (some 422) (some (.str "bad")) "m"
          | _ => .success (.obj [("queued", .bool true)]))
        [] [.obj [("event", .str "iniciar_flow")], .obj [("action", .str "iniciar_flow")]]).outcome
      = .firstSuccess (.obj [("action", .str "iniciar_flow")]) (.obj [("queued", .bool true)])
    ∧ (runProbe
        (fun i => match i with
          | 0 => .failure (some 422) (some (.str "bad")) "m"
          | _ => .success (.obj [("queued", .bool true)]))
        [] [.obj [("event", .str "iniciar_flow")], .obj [("action", .str "iniciar_flow")]]).delays
      = List.replicate 1 300 := by
  have h := flow_start_first_success
    (fun i => match i with
      | 0 => .failure (some 422) (some (.str "bad")) "m"
      | _ => .success (.obj [("queued", .bool true)]))
    [] [.obj [("event", .str "iniciar_flow")], .obj [("action", .str "iniciar_flow")]]
    2 (.obj [("action", .str "iniciar_flow")]) (.obj [("queued", .bool true)])
    (by omega) rfl
    (fun j hj => by
      have hj0 : j = 0 := by omega
      subst hj0
      rfl)
    rfl
  exact ⟨h.1, h.2.2.1⟩

/-- The j-th attempt record of a block of failures belongs to the j-th
candidate of the block and the j-th call. -/
theorem attemptsFor_getElem (call : Nat → CallResult) :
    ∀ (ps : List Json) (i j : Nat),
      (attemptsFor call i ps)[j]? = (ps[j]?).map (fun p => attemptOf p (call (i + j))) := by
  intro ps
  induction ps with
  | nil => intro i j; simp [attemptsFor]
  | cons p rest ih =>
      intro i j
      cases j with
      | zero => simp [attemptsFor]
      | succ j =>
          have h := ih (i + 1) j
          have hidx : i + 1 + j = i + (j + 1) := by omega
          rw [hidx] at h
          simpa [attemptsFor] using h

/-- C3: a non-recoverable status (outside {400, 422}) on the first
candidate aborts after exactly one attempt, whatever the list length; the
HTTP response carries the remote status with body `{error, attempts}`
where `attempts` has the single attempt record. -/
theorem flow_start_non_recoverable_abort (call : Nat → CallResult)
    (headers : List (String × String)) (p : Json) (rest : List Json)
    (s : Nat) (d : Option Json) (m : String)
    (h : call 0 = .failure (some s) d m)
    (hs : s ≠ 0) (h422 : s ≠ 422) (h400 : s ≠ 400) :
    (runProbe call headers (p :: rest)).outcome =
      .nonRecoverable s (dataOrMessage d m) [mkAttempt p (some s) d m]
    ∧ httpOf (runProbe call headers (p :: rest)).outcome =
        (s, .obj [("error", (dataOrMessage d m).toJson),
                  ("attempts", .arr [(mkAttempt p (some s) d m).toJson])])
    ∧ (runProbe call headers (p :: rest)).calls = [mkReq headers p]
    ∧ (runProbe call headers (p :: rest)).delays = [] := by
  have hrun : runProbe call headers (p :: rest) =
      { outcome := .nonRecoverable s (dataOrMessage d m) [mkAttempt p (some s) d m]
        delays := []
        calls := [mkReq headers p]
        results := [mkAttempt p (some s) d m] } := by
    rw [runProbe, probeGo_abort call headers p rest 0 [] [] [] s d m h hs h422 h400]
    simp
  exact ⟨by rw [hrun], by rw [hrun]; simp [httpOf], by rw [hrun], by rw [hrun]⟩

/-- Witness for C3: the spec's concrete scenario, one candidate
`{event: "iniciar_flow"}` rejected with status 503. -/
theorem flow_start_non_recoverable_abort_witness :
    (runProbe (fun _ => .failure (some 503) (some (.str "unavailable")) "m") []
        [.obj [("event", .str "iniciar_flow")]]).outcome =
      .nonRecoverable 503 (.json (.str "unavailable"))
        [{ payload := .obj [("event", .str "iniciar_flow")],
           status := .num 503, data := .json (.str "unavailable") }]
    ∧ httpOf (runProbe (fun _ => .failure (some 503) (some (.str "unavailable")) "m") []
          [.obj [("event", .str "iniciar_flow")]]).outcome =
        (503, .obj [("error", .str "unavailable"),
                    ("attempts", .arr [.obj [("payload", .obj [("event", .str "iniciar_flow")]),
                                             ("status", .num 503),
                                             ("data", .str "unavailable")]])]) := by
  have h := flow_start_non_recoverable_abort
    (fun _ => .failure (some 503) (some (.str "unavailable")) "m") []
    (.obj [("event", .str "iniciar_flow")]) [] 503 (some (.str "unavailable")) "m"
    rfl (by omega) (by omega) (by omega)
  exact ⟨h.1, h.2.1⟩

/-- C4: if every candidate fails with a recoverable status, the run is
exhausted: HTTP 422 with body `{ok: false, message, attempts}` where the
attempt list has one record per candidate, in trial order. -/
theorem flow_start_exhausted (call : Nat → CallResult)
    (headers : List (String × String)) (cs : List Json)
    (hfail : ∀ j, j < cs.length → (call j).isRecoverableFailure = true) :
    (runProbe call headers cs).outcome = .exhausted (attemptsFor call 0 cs)
    ∧ (attemptsFor call 0 cs).length = cs.length
    ∧ (∀ j, (attemptsFor call 0 cs)[j]? =
        (cs[j]?).map (fun p => attemptOf p (call j)))
    ∧ httpOf (runProbe call headers cs).outcome =
        (422, .obj [("ok", .bool false), ("message", .str exhaustedMessage),
                    ("attempts", .arr ((attemptsFor call 0 cs).map Attempt.toJson))]) := by
  have hrun : runProbe call headers cs =
      { outcome := .exhausted (attemptsFor call 0 cs)
        delays := List.replicate cs.length 300
        calls := cs.map (mkReq headers)
        results := attemptsFor call 0 cs } := by
    rw [runProbe_skip call headers cs cs.length (Nat.le_refl _)
          (fun j hj => isRecoverableFailure_nonAborting _ (hfail j hj))]
    simp [probeGo]
  refine ⟨by rw [hrun], attemptsFor_length call 0 cs, ?_, by rw [hrun]; rfl⟩
  intro j
  simpa using attemptsFor_getElem call cs 0 j

/-- Witness for C4: two candidates, both rejected with recoverable
statuses 422 and 400. -/
theorem flow_start_exhausted_witness :
    (runProbe
        (fun i => match i with
          | 0 => .failure (some 422) (some (.str "a")) "m0"
          | _ => .failure (some 400) (some (.str "b")) "m1")
        [] [.obj [("event", .str "iniciar_flow")], .obj []]).outcome
      = .exhausted
          [{ payload := .obj [("event", .str "iniciar_flow")],
             status := .num 422, data := .json (.str "a") },
           { payload := .obj [], status := .num 400, data := .json (.str "b") }]
    ∧ (httpOf (runProbe
        (fun i => match i with
          | 0 => .failure (some 422) (some (.str "a")) "m0"
          | _ => .failure (some 400) (some (.str "b")) "m1")
        [] [.obj [("event", .str "iniciar_flow")], .obj []]).outcome).1 = 422 := by
  have h := flow_start_exhausted
    (fun i => match i with
      | 0 => .failure (some 422) (some (.str "a")) "m0"
      | _ => .failure (some 400) (some (.str "b")) "m1")
    [] [.obj [("event", .str "iniciar_flow")], .obj []]
    (fun j hj => by
      match j, hj with
      | 0, _ => rfl
      | 1, _ => rfl)
  refine ⟨?_, ?_⟩
  · rw [h.1]; rfl
  · rw [h.2.2.2]

/-- C2: a transport-level failure with no response object never triggers
the early abort — the run aborts only when some call returned a response
with a (nonzero) numeric status outside the recoverable set — and a
no-response failure on the first candidate followed by a success on the
second yields first-success with the second candidate, the first attempt
being recorded with the `'no-response'` sentinel. -/
theorem flow_start_no_response_continues (call : Nat → CallResult)
    (headers : List (String × String)) :
    (∀ cs s e atts, (runProbe call headers cs).outcome = .nonRecoverable s e atts →
        s ≠ 0 ∧ s ≠ 422 ∧ s ≠ 400 ∧ ∃ j d m, call j = .failure (some s) d m)
    ∧ (∀ p1 p2 rest d m body, call 0 = .failure none d m → call 1 = .success body →
        (runProbe call headers (p1 :: p2 :: rest)).outcome = .firstSuccess p2 body
        ∧ (runProbe call headers (p1 :: p2 :: rest)).results = [mkAttempt p1 none d m]
        ∧ (mkAttempt p1 none d m).status = .noResponse) := by
  constructor
  · intro cs s e atts h
    exact probeGo_abort_inv call headers cs 0 [] [] [] s e atts h
  · intro p1 p2 rest d m body h0 h1
    have hrun : runProbe call headers (p1 :: p2 :: rest) =
        { outcome := .firstSuccess p2 body
          delays := [300]
          calls := [mkReq headers p1, mkReq headers p2]
          results := [mkAttempt p1 none d m] } := by
      rw [runProbe,
          probeGo_continue call headers p1 (p2 :: rest) 0 [] [] [] none d m h0 rfl,
          probeGo_success call headers p2 rest 1 ([] ++ [mkAttempt p1 none d m])
            ([] ++ [300]) ([] ++ [mkReq headers p1]) body h1]
      simp
    exact ⟨by rw [hrun], by rw [hrun], rfl⟩

/-- Witness for C2: no response on the first candidate, success on the
second. -/
theorem flow_start_no_response_continues_witness :
    (runProbe
        (fun i => match i with
          | 0 => .failure none none "socket hang up"
          | _ => .success (.obj [("queued", .bool true)]))
        [] [.obj [("event", .str "iniciar_flow")], .obj [("action", .str "iniciar_flow")]]).outcome
      = .firstSuccess (.obj [("action", .str "iniciar_flow")]) (.obj [("queued", .bool true)])
    ∧ (runProbe
        (fun i => match i with
          | 0 => .failure none none "socket hang up"
          | _ => .success (.obj [("queued", .bool true)]))
        [] [.obj [("event", .str "iniciar_flow")], .obj [("action", .str "iniciar_flow")]]).results
      = [{ payload := .obj [("event", .str "iniciar_flow")],
           status := .noResponse, data := .msg "socket hang up" }] := by
  have h := (flow_start_no_response_continues
    (fun i => match i with
      | 0 => .failure none none "socket hang up"
      | _ => .success (.obj [("queued", .bool true)]))
    []).2
    (.obj [("event", .str "iniciar_flow")]) (.obj [("action", .str "iniciar_flow")]) []
    none "socket hang up" (.obj [("queued", .bool true)]) rfl rfl
  exact ⟨h.1, by rw [h.2.1]; rfl⟩

/-- C8: every non-aborting failure — recoverable status or no response —
is followed by the 300 ms delay, including after the last candidate, so an
exhausted run over L candidates awaits exactly L delays. -/
theorem flow_start_trailing_delay (call : Nat → CallResult)
    (headers : List (String × String)) (cs : List Json)
    (hfail : ∀ j, j < cs.length → (call j).isNonAbortingFailure = true) :
    (runProbe call headers cs).outcome = .exhausted (attemptsFor call 0 cs)
    ∧ (runProbe call headers cs).delays = List.replicate cs.length 300
    ∧ (runProbe call headers cs).delays.length = cs.length := by
  have hrun : runProbe call headers cs =
      { outcome := .exhausted (attemptsFor call 0 cs)
        delays := List.replicate cs.length 300
        calls := cs.map (mkReq headers)
        results := attemptsFor call 0 cs } := by
    rw [runProbe_skip call headers cs cs.length (Nat.le_refl _) hfail]
    simp [probeGo]
  exact ⟨by rw [hrun], by rw [hrun], by rw [hrun]; simp⟩

/-- Witness for C8: three candidates, a recoverable 422, a no-response
transport failure, and a recoverable 400; the run awaits three delays. -/
theorem flow_start_trailing_delay_witness :
    (runProbe
        (fun i => match i with
          | 0 => .failure (some 422) none "m0"
          | 1 => .failure none none "m1"
          | _ => .failure (some 400) none "m2")
        [] [.obj [], .obj [], .obj []]).delays = [300, 300, 300] := by
  have h := flow_start_trailing_delay
    (fun i => match i with
      | 0 => .failure (some 422) none "m0"
      | 1 => .failure none none "m1"
      | _ => .failure (some 400) none "m2")
    [] [.obj [], .obj [], .obj []]
    (fun j hj => by
      match j, hj with
      | 0, _ => rfl
      | 1, _ => rfl
      | 2, _ => rfl)
  rw [h.2.1]
  rfl

/-- C5: every probe run ends in exactly one of the three outcomes —
first-success, non-recoverable-failure, exhausted; exhaustion is the
normal HTTP 422 response, and no outcome of the loop ever produces the
`500 {error}` response reserved for the outer catch. -/
theorem flow_start_outcome_trichotomy (call : Nat → CallResult)
    (headers : List (String × String)) (cs : List Json) :
    ((∃ p r, (runProbe call headers cs).outcome = .firstSuccess p r)
      ∨ (∃ s e a, (runProbe call headers cs).outcome = .nonRecoverable s e a)
      ∨ (∃ a, (runProbe call headers cs).outcome = .exhausted a))
    ∧ (∀ p r s e a, ¬((runProbe call headers cs).outcome = .firstSuccess p r
        ∧ (runProbe call headers cs).outcome = .nonRecoverable s e a))
    ∧ (∀ p r a, ¬((runProbe call headers cs).outcome = .firstSuccess p r
        ∧ (runProbe call headers cs).outcome = .exhausted a))
    ∧ (∀ s e a b, ¬((runProbe call headers cs).outcome = .nonRecoverable s e a
        ∧ (runProbe call headers cs).outcome = .exhausted b))
    ∧ (∀ a, (runProbe call headers cs).outcome = .exhausted a →
        httpOf (runProbe call headers cs).outcome =
          (422, .obj [("ok", .bool false), ("message", .str exhaustedMessage),
                      ("attempts", .arr (a.map Attempt.toJson))]))
    ∧ (∀ m, httpOf (runProbe call headers cs).outcome ≠ internalFault m) := by
  cases ho : (runProbe call headers cs).outcome with
  | firstSuccess p r =>
      exact ⟨Or.inl ⟨p, r, rfl⟩,
        fun _ _ _ _ _ h => by simp at h,
        fun _ _ _ h => by simp at h,
        fun _ _ _ _ h => by rw [h.1] at h; simp at h,
        fun _ h => by simp at h,
        fun m => by simp [httpOf, internalFault]⟩
  | nonRecoverable s e a =>
      exact ⟨Or.inr (Or.inl ⟨s, e, a, rfl⟩),
        fun _ _ _ _ _ h => by simp at h,
        fun _ _ _ h => by simp at h,
        fun _ _ _ _ h => by simp at h,
        fun _ h => by simp at h,
        fun m => by simp [httpOf, internalFault]⟩
  | exhausted a =>
      exact ⟨Or.inr (Or.inr ⟨a, rfl⟩),
        fun _ _ _ _ _ h => by simp at h,
        fun _ _ _ h => by simp at h,
        fun _ _ _ _ h => by simp at h,
        fun b h => by rw [ProbeOutcome.exhausted.injEq] at h; rw [h]; rfl,
        fun m => by simp [httpOf, internalFault]⟩

/-- C6: the recoverable set is exactly {400, 422}: a failure with such a
status records the attempt, awaits one fixed 300 ms delay and proceeds to
the next candidate, while any other (nonzero) response status aborts;
every awaited delay is 300 ms (no growing backoff) and the run is a
single pass, issuing at most one call per candidate. -/
theorem flow_start_recoverable_retry (call : Nat → CallResult)
    (headers : List (String × String)) :
    (∀ cs x, x ∈ (runProbe call headers cs).delays → x = 300)
    ∧ (∀ p rest s d m, call 0 = .failure (some s) d m → (s = 422 ∨ s = 400) →
        runProbe call headers (p :: rest) =
          probeGo call headers rest 1 [mkAttempt p (some s) d m] [300] [mkReq headers p])
    ∧ (∀ p rest s d m, call 0 = .failure (some s) d m → s ≠ 0 → s ≠ 422 → s ≠ 400 →
        (runProbe call headers (p :: rest)).outcome =
          .nonRecoverable s (dataOrMessage d m) [mkAttempt p (some s) d m])
    ∧ (∀ cs, ∃ k, k ≤ cs.length ∧
        (runProbe call headers cs).calls = (cs.take k).map (mkReq headers))
    ∧ (∀ cs, (runProbe call headers cs).calls.length ≤ cs.length) := by
  have hcalls : ∀ cs : List Json, ∃ k, k ≤ cs.length ∧
      (runProbe call headers cs).calls = (cs.take k).map (mkReq headers) := by
    intro cs
    obtain ⟨k, hk, h⟩ := probeGo_calls call headers cs 0 [] [] []
    exact ⟨k, hk, by rw [runProbe, h]; simp⟩
  refine ⟨?_, ?_, ?_, hcalls, ?_⟩
  · intro cs x hx
    rcases probeGo_delays call headers cs 0 [] [] [] x (by rwa [runProbe] at hx) with h | h
    · simp at h
    · exact h
  · intro p rest s d m h hrec
    have hna : (CallResult.failure (some s) d m).isNonAbortingFailure = true := by
      rcases hrec with h' | h' <;> simp [CallResult.isNonAbortingFailure, h']
    rw [runProbe, probeGo_continue call headers p rest 0 [] [] [] (some s) d m h hna]
    simp
  · intro p rest s d m h hs h422 h400
    rw [runProbe, probeGo_abort call headers p rest 0 [] [] [] s d m h hs h422 h400]
    simp
  · intro cs
    obtain ⟨k, hk, h⟩ := hcalls cs
    rw [h]
    calc ((cs.take k).map (mkReq headers)).length = (cs.take k).length := by simp
      _ ≤ cs.length := by simp

/-- Witness for C6: a 400-rejected first candidate leads to one recorded
attempt, one 300 ms delay, and the loop continuing at the second. -/
theorem flow_start_recoverable_retry_witness :
    runProbe (fun _ => .failure (some 400) (some (.str "bad request")) "m") []
        [.obj [("event", .str "iniciar_flow")], .obj []] =
      probeGo (fun _ => .failure (some 400) (some (.str "bad request")) "m") []
        [.obj []] 1
        [{ payload := .obj [("event", .str "iniciar_flow")],
           status := .num 400, data := .json (.str "bad request") }]
        [300]
        [mkReq [] (.obj [("event", .str "iniciar_flow")])] := by
  have h := (flow_start_recoverable_retry
      (fun _ => .failure (some 400) (some (.str "bad request")) "m") []).2.1
    (.obj [("event", .str "iniciar_flow")]) [.obj []] 400
    (some (.str "bad request")) "m" rfl (Or.inr rfl)
  rw [h]
  rfl

/-- C7: the calls a run issues are exactly the image of a prefix of the
candidate list, in list order, one POST per tried candidate, each to the
fixed webhook URL with the candidate as body, the configured headers and
the fixed 10 s timeout. -/
theorem flow_start_calls_in_order (call : Nat → CallResult)
    (headers : List (String × String)) (cs : List Json) :
    ∃ k, k ≤ cs.length
      ∧ (runProbe call headers cs).calls = (cs.take k).map (mkReq headers)
      ∧ ∀ r ∈ (runProbe call headers cs).calls,
          r.url = flowWebhookUrl ∧ r.timeout = 10000 ∧ r.headers = headers := by
  obtain ⟨k, hk, h⟩ := probeGo_calls call headers cs 0 [] [] []
  have h0 : (runProbe call headers cs).calls = (cs.take k).map (mkReq headers) := by
    rw [runProbe, h]; simp
  refine ⟨k, hk, h0, ?_⟩
  intro r hr
  rw [h0] at hr
  obtain ⟨p, -, hp⟩ := List.mem_map.mp hr
  rw [← hp]
  exact ⟨rfl, rfl, rfl⟩

/-- C9: when a failed call carries a falsy response body (absent, null or
the empty string), both the recorded attempt's `data` field and the
non-recoverable `error` field fall back to the client error message via
`data || err.message`; a truthy remote body is surfaced verbatim. -/
theorem flow_start_falsy_data_fallback (call : Nat → CallResult)
    (headers : List (String × String)) :
    (∀ m, dataOrMessage none m = .msg m)
    ∧ (∀ m, dataOrMessage (some .null) m = .msg m)
    ∧ (∀ m, dataOrMessage (some (.str "")) m = .msg m)
    ∧ (∀ d m, d.truthy = true → dataOrMessage (some d) m = .json d)
    ∧ (∀ p st d m, (mkAttempt p st d m).data = dataOrMessage d m)
    ∧ (∀ p rest s m, call 0 = .failure (some s) (some (.str "")) m →
        s ≠ 0 → s ≠ 422 → s ≠ 400 →
        (runProbe call headers (p :: rest)).outcome =
          .nonRecoverable s (.msg m) [mkAttempt p (some s) (some (.str "")) m]
        ∧ (mkAttempt p (some s) (some (.str "")) m).data = .msg m) := by
  refine ⟨fun m => rfl, fun m => rfl, fun m => rfl,
    fun d m hd => by simp [dataOrMessage, hd], fun p st d m => rfl, ?_⟩
  intro p rest s m h hs h422 h400
  constructor
  · rw [runProbe, probeGo_abort call headers p rest 0 [] [] [] s (some (.str "")) m
        h hs h422 h400]
    rfl
  · rfl

/-- Witness for C9: a 500 rejection whose response body is the empty
string surfaces the transport message in both `error` and the attempt. -/
theorem flow_start_falsy_data_fallback_witness :
    (runProbe (fun _ => .failure (some 500) (some (.str "")) "Request failed") []
        [.obj [("event", .str "iniciar_flow")]]).outcome =
      .nonRecoverable 500 (.msg "Request failed")
        [{ payload := .obj [("event", .str "iniciar_flow")],
           status := .num 500, data := .msg "Request failed" }] := by
  have h := ((flow_start_falsy_data_fallback
      (fun _ => .failure (some 500) (some (.str "")) "Request failed") []).2.2.2.2.2
    (.obj [("event", .str "iniciar_flow")]) [] 500 "Request failed"
    rfl (by omega) (by omega) (by omega)).1
  rw [h]
  rfl

/-- Counterexample for C10: the claim quantifies only over the first 13
candidates; when they all fail recoverably but the 14th (the first empty
object) is accepted, the run stops at 14 calls, so the empty body is sent
once, not twice. -/
theorem flow_start_double_empty_counterexample :
    (∀ i, i < 13 →
      ((fun i => if i < 13 then CallResult.failure (some 422) none "fail"
          else CallResult.success (Json.obj [])) i).isNonAbortingFailure = true)
    ∧ (runProbe
        (fun i => if i < 13 then CallResult.failure (some 422) none "fail"
          else CallResult.success (Json.obj []))
        [] flowCandidates).calls.length = 14
    ∧ flowCandidates.length = 15 := by
  refine ⟨?_, rfl, rfl⟩
  decide

/-- C10 (amended): the fixed candidate list has exactly 15 entries, its
last two both the empty object; whenever the first 14 candidates all fail
without aborting, the empty JSON body is sent twice in succession as the
14th and 15th outbound calls. -/
theorem flow_start_double_empty_amended (call : Nat → CallResult)
    (headers : List (String × String))
    (h : ∀ j, j < 14 → (call j).isNonAbortingFailure = true) :
    flowCandidates.length = 15
    ∧ flowCandidates[13]? = some (.obj [])
    ∧ flowCandidates[14]? = some (.obj [])
    ∧ (runProbe call headers flowCandidates).calls.map OutboundRequest.body
        = flowCandidates
    ∧ ((runProbe call headers flowCandidates).calls.map OutboundRequest.body).drop 13
        = [.obj [], .obj []] := by
  have hdrop : flowCandidates.drop 14 = [Json.obj []] := rfl
  have hcalls : (runProbe call headers flowCandidates).calls =
      (flowCandidates.take 14).map (mkReq headers) ++ [mkReq headers (.obj [])] := by
    rw [runProbe_skip call headers flowCandidates 14 (by simp [flowCandidates]) h, hdrop]
    cases hc : call 14 with
    | success b =>
        rw [probeGo_success call headers (.obj []) [] 14
            (attemptsFor call 0 (flowCandidates.take 14)) (List.replicate 14 300)
            ((flowCandidates.take 14).map (mkReq headers)) b hc]
    | failure st d m =>
        cases st with
        | some s =>
            by_cases habort : (s != 0 && !(s == 422 || s == 400)) = true
            · simp only [probeGo, hc]
              rw [if_pos habort]
            · simp only [probeGo, hc]
              rw [if_neg habort]
        | none => simp [probeGo, hc]
  have hmap : (runProbe call headers flowCandidates).calls.map OutboundRequest.body
      = flowCandidates := by
    rw [hcalls]
    rw [List.map_append, List.map_map]
    rfl
  exact ⟨rfl, rfl, rfl, hmap, by rw [hmap]; rfl⟩

/-- Witness for C10 (amended): all fifteen candidates rejected with 422;
calls 14 and 15 both carry the empty object. -/
theorem flow_start_double_empty_amended_witness :
    ((runProbe (fun _ => .failure (some 422) none "fail") [] flowCandidates).calls.map
        OutboundRequest.body).drop 13 = [.obj [], .obj []] := by
  exact (flow_start_double_empty_amended (fun _ => .failure (some 422) none "fail") []
    (fun j hj => rfl)).2.2.2.2
